import Mathlib

/-!
Verification of the Benthos stream-builder core
(`public/service/stream_builder.go` and `internal/component/tracer` config
conversion) against its natural-language specification.

The Go code is shallowly embedded: the mutable `StreamBuilder` receiver
becomes an explicit state record, each mutating method becomes a function
`StreamBuilder → args → Option String × StreamBuilder` returning the Go
`error` (`none` = nil) together with the post-call state, and the dynamic
`any` plugin payloads become the inductive `AnyValue`.  External
collaborators (YAML parsing, linting, the docs provider) are passed in as
already-resolved arguments or capability records, mirroring how the Go code
consumes them through narrow interfaces.
-/

/-- Minimal model of a `yaml.Node` pointer as consumed opaquely by the
tracer conversion functions: the line number (used for lint errors) plus an
opaque scalar payload. -/
structure YamlNode where
  line : Int
  payload : String
deriving Repr, DecidableEq, Inhabited

/-- Model of Go `any` values as they occur in component plugin payloads:
nil, strings, slices, `map[string]any` (as an association list in insertion
order), embedded component configs (type, plugin, label) and yaml nodes. -/
inductive AnyValue : Type where
  | null : AnyValue
  | str : String → AnyValue
  | list : List AnyValue → AnyValue
  | amap : List (String × AnyValue) → AnyValue
  | conf : String → AnyValue → String → AnyValue
  | ynode : YamlNode → AnyValue

/-- A component config (`input.Config`, `output.Config`, `cache.Config`,
`ratelimit.Config`, ...): a type discriminator, a plugin payload and a
label. -/
structure CConfig where
  type_ : String
  Plugin : AnyValue
  Label : String

/-- Embeds a component config into an `any` slot, as Go does when placing
`input.Config` values inside a broker plugin map. -/
def CConfig.ofAny (c : CConfig) : AnyValue :=
  AnyValue.conf c.type_ c.Plugin c.Label

/-- Association-list lookup for the entries of a modelled Go map. -/
def lookupEntry (k : String) : List (String × AnyValue) → Option AnyValue
  | [] => none
  | (k', v) :: rest => if k' = k then some v else lookupEntry k rest

/-- Looks a key up in an `AnyValue` that models a `map[string]any`. -/
def AnyValue.mapLookup (v : AnyValue) (k : String) : Option AnyValue :=
  match v with
  | .amap es => lookupEntry k es
  | _ => none

/-- Model of `api.Config` (the service-wide HTTP server settings), carried
opaquely by the builder; only the `Enabled` default matters here. -/
structure ApiConfig where
  Enabled : Bool
  Address : String
deriving Repr, DecidableEq

/-- Model of `log.Config`, carried opaquely by the builder. -/
structure LogConfig where
  LogLevel : String
  Format : String
deriving Repr, DecidableEq

/-- The tracer config struct from `internal/component/tracer`: a type
discriminator plus an `any` plugin payload. -/
structure TracerConfig where
  type_ : String
  Plugin : AnyValue

/-- Model of `manager.ResourceConfig` restricted to the two resource kinds
the stream builder manipulates (`ResourceCaches`, `ResourceRateLimits`). -/
structure ResourceConfig where
  ResourceCaches : List CConfig
  ResourceRateLimits : List CConfig

/-- A message handed to consumer handler functions: opaque content plus
string metadata, per the spec's MessagePart. -/
structure Message where
  content : String
  metadata : List (String × String)
deriving Repr, DecidableEq, Inhabited

/-- Model of `config.Type`: the full parsed Benthos service config that
`SetYAML`/`SetFields` produce via the external parser. -/
structure FullConfig where
  HTTP : ApiConfig
  Input : CConfig
  Buffer : CConfig
  Processors : List CConfig
  Threads : Int
  Output : CConfig
  Resources : ResourceConfig
  Logger : LogConfig
  Metrics : CConfig
  Tracer : TracerConfig

/-- Model of the `builderConfig` struct returned by `buildConfig`: the
composed snapshot of the builder.  `HTTP` and `Logger` are optional because
the Go struct omits them (`omitempty` pointers) when an external mux or a
custom logger is installed. -/
structure BuilderConfig where
  HTTP : Option ApiConfig
  Input : CConfig
  Buffer : CConfig
  Threads : Int
  Processors : List CConfig
  Output : CConfig
  Resources : ResourceConfig
  Metrics : CConfig
  Logger : Option LogConfig
  Tracer : TracerConfig

/-- The builder state: every field of the Go `StreamBuilder` struct that
participates in the modelled operations.  The producer channel is modelled
by its presence (`Option Unit`), the consumer func by the stored batch
handler, and `apiMut`/`customLogger` by presence markers. -/
structure StreamBuilder where
  engineVersion : String
  http : ApiConfig
  threads : Int
  inputs : List CConfig
  buffer : CConfig
  processors : List CConfig
  outputs : List CConfig
  resources : ResourceConfig
  metrics : CConfig
  tracer : TracerConfig
  logger : LogConfig
  producerChan : Option Unit
  producerID : String
  consumerFunc : Option (List Message → Option String)
  consumerID : String
  apiMut : Option Unit
  customLogger : Option Unit
  lintingDisabled : Bool
  outputBrokerPattern : String

/-- Modelled from the spec: `api.NewConfig` (external to src), the default
HTTP server settings; the server is enabled in a standard config. -/
def api_NewConfig : ApiConfig :=
  { Enabled := true, Address := "0.0.0.0:4195" }

/-- Modelled from the spec: `log.NewConfig` (external to src), the default
logger settings. -/
def log_NewConfig : LogConfig :=
  { LogLevel := "INFO", Format := "logfmt" }

/-- Modelled from the spec: `buffer.NewConfig` (external to src), the
default pass-through buffer. -/
def buffer_NewConfig : CConfig :=
  { type_ := "none", Plugin := AnyValue.null, Label := "" }

/-- Modelled from the spec: `metrics.NewConfig` (external to src), the
default no-op metrics exporter. -/
def metrics_NewConfig : CConfig :=
  { type_ := "none", Plugin := AnyValue.null, Label := "" }

/-- The default tracer config from `internal/component/tracer.NewConfig`:
type `none`, nil plugin. -/
def tracer_NewConfig : TracerConfig :=
  { type_ := "none", Plugin := AnyValue.null }

/-- Modelled from the spec: `input.NewConfig` (external to src), the
documented default input used when no input was configured. -/
def input_NewConfig : CConfig :=
  { type_ := "stdin", Plugin := AnyValue.null, Label := "" }

/-- Modelled from the spec: `output.NewConfig` (external to src), the
documented default output used when no output was configured. -/
def output_NewConfig : CConfig :=
  { type_ := "stdout", Plugin := AnyValue.null, Label := "" }

/-- Modelled from the spec: `manager.NewResourceConfig` (external to src),
the empty resource set. -/
def manager_NewResourceConfig : ResourceConfig :=
  { ResourceCaches := [], ResourceRateLimits := [] }

/-- `NewStreamBuilder`: the fresh builder with documented defaults; the
only deviation from a standard config is that the HTTP server is
disabled. -/
def newStreamBuilder : StreamBuilder :=
  { engineVersion := ""
    http := { api_NewConfig with Enabled := false }
    threads := 0
    inputs := []
    buffer := buffer_NewConfig
    processors := []
    outputs := []
    resources := manager_NewResourceConfig
    metrics := metrics_NewConfig
    tracer := tracer_NewConfig
    logger := log_NewConfig
    producerChan := none
    producerID := ""
    consumerFunc := none
    consumerID := ""
    apiMut := none
    customLogger := none
    lintingDisabled := false
    outputBrokerPattern := "" }

/-- `SetThreads`. -/
def StreamBuilder.setThreads (s : StreamBuilder) (n : Int) : StreamBuilder :=
  { s with threads := n }

/-- `SetEngineVersion`. -/
def StreamBuilder.setEngineVersion (s : StreamBuilder) (ev : String) : StreamBuilder :=
  { s with engineVersion := ev }

/-- `SetOutputBrokerPattern`: records the broker pattern symbol used when
multiple outputs are composed. -/
def StreamBuilder.setOutputBrokerPattern (s : StreamBuilder) (pattern : String) : StreamBuilder :=
  { s with outputBrokerPattern := pattern }

/-- `DisableLinting`. -/
def StreamBuilder.disableLinting (s : StreamBuilder) : StreamBuilder :=
  { s with lintingDisabled := true }

/-- `SetPrintLogger` / `SetLogger`: installs a custom logger, modelled by
its presence. -/
def StreamBuilder.setCustomLogger (s : StreamBuilder) : StreamBuilder :=
  { s with customLogger := some () }

/-- `SetHTTPMux`: installs an external HTTP multiplexer, modelled by its
presence. -/
def StreamBuilder.setHTTPMux (s : StreamBuilder) : StreamBuilder :=
  { s with apiMut := some () }

/-- The per-message consumer wrapper built inside `AddConsumerFunc`: the
stored batch handler ranges over the batch in order and returns the first
failing result, `none` when every message succeeds. -/
def consumerFuncFromHandler (fn : Message → Option String) : List Message → Option String
  | [] => none
  | m :: ms =>
    match fn m with
    | some e => some e
    | none => consumerFuncFromHandler fn ms

/-- Observation function for `consumerFuncFromHandler`: the list of
messages actually passed to the per-message handler by the loop, in order
(the loop stops right after the first failing message). -/
def consumerFuncInvocations (fn : Message → Option String) : List Message → List Message
  | [] => []
  | m :: ms =>
    match fn m with
    | some _ => [m]
    | none => m :: consumerFuncInvocations fn ms

/-- `AddProducerFunc` state effect: fails when a producer func was already
added, otherwise installs the transaction channel, records the generated
uuid (passed in, as uuid generation is an external effect) and appends the
synthetic `inproc` input.  The returned handler closure is modelled
separately by `producerFuncCall`. -/
def StreamBuilder.addProducerFunc (s : StreamBuilder) (id : String) :
    Option String × StreamBuilder :=
  if s.producerChan.isSome then
    (some "unable to add multiple producer funcs to a stream builder", s)
  else
    (none, { s with
      producerChan := some ()
      producerID := id
      inputs := s.inputs ++ [{ type_ := "inproc", Plugin := AnyValue.str id, Label := "" }] })

/-- `AddBatchProducerFunc` state effect: identical to `AddProducerFunc`
except for the shape of the returned handler closure. -/
def StreamBuilder.addBatchProducerFunc (s : StreamBuilder) (id : String) :
    Option String × StreamBuilder :=
  if s.producerChan.isSome then
    (some "unable to add multiple producer funcs to a stream builder", s)
  else
    (none, { s with
      producerChan := some ()
      producerID := id
      inputs := s.inputs ++ [{ type_ := "inproc", Plugin := AnyValue.str id, Label := "" }] })

/-- `AddConsumerFunc`: fails when a consumer func was already added,
otherwise stores the per-message wrapper of the handler, records the
generated uuid and appends the synthetic `inproc` output. -/
def StreamBuilder.addConsumerFunc (s : StreamBuilder) (id : String)
    (fn : Message → Option String) : Option String × StreamBuilder :=
  if s.consumerFunc.isSome then
    (some "unable to add multiple consumer funcs to a stream builder", s)
  else
    (none, { s with
      consumerFunc := some (consumerFuncFromHandler fn)
      consumerID := id
      outputs := s.outputs ++ [{ type_ := "inproc", Plugin := AnyValue.str id, Label := "" }] })

/-- `AddBatchConsumerFunc`: like `AddConsumerFunc` but stores the batch
handler directly. -/
def StreamBuilder.addBatchConsumerFunc (s : StreamBuilder) (id : String)
    (fn : List Message → Option String) : Option String × StreamBuilder :=
  if s.consumerFunc.isSome then
    (some "unable to add multiple consumer funcs to a stream builder", s)
  else
    (none, { s with
      consumerFunc := some fn
      consumerID := id
      outputs := s.outputs ++ [{ type_ := "inproc", Plugin := AnyValue.str id, Label := "" }] })

/-- `AddInputYAML`: the external parse + lint + `input.FromAny` chain is
passed in as its resolved outcome; a parse or lint failure is surfaced
unchanged, a parsed config is appended to the input list. -/
def StreamBuilder.addInputYAML (s : StreamBuilder) (p : Except String CConfig) :
    Option String × StreamBuilder :=
  match p with
  | .error e => (some e, s)
  | .ok iconf => (none, { s with inputs := s.inputs ++ [iconf] })

/-- `AddProcessorYAML`: appends a parsed processor config after all prior
ones. -/
def StreamBuilder.addProcessorYAML (s : StreamBuilder) (p : Except String CConfig) :
    Option String × StreamBuilder :=
  match p with
  | .error e => (some e, s)
  | .ok pconf => (none, { s with processors := s.processors ++ [pconf] })

/-- `AddOutputYAML`: appends a parsed output config. -/
def StreamBuilder.addOutputYAML (s : StreamBuilder) (p : Except String CConfig) :
    Option String × StreamBuilder :=
  match p with
  | .error e => (some e, s)
  | .ok oconf => (none, { s with outputs := s.outputs ++ [oconf] })

/-- `AddCacheYAML`: after the external parse, requires a non-empty label,
scans the existing cache resources for a label collision, and only then
appends. -/
def StreamBuilder.addCacheYAML (s : StreamBuilder) (p : Except String CConfig) :
    Option String × StreamBuilder :=
  match p with
  | .error e => (some e, s)
  | .ok cconf =>
    if cconf.Label = "" then
      (some "a label must be specified for cache resources", s)
    else
      match s.resources.ResourceCaches.find? (fun cc => cc.Label == cconf.Label) with
      | some cc =>
        (some ("label " ++ cc.Label ++ " collides with a previously defined resource"), s)
      | none =>
        (none, { s with resources := { s.resources with
          ResourceCaches := s.resources.ResourceCaches ++ [cconf] } })

/-- `AddRateLimitYAML`: same shape as `AddCacheYAML` over the rate-limit
resource kind. -/
def StreamBuilder.addRateLimitYAML (s : StreamBuilder) (p : Except String CConfig) :
    Option String × StreamBuilder :=
  match p with
  | .error e => (some e, s)
  | .ok rconf =>
    if rconf.Label = "" then
      (some "a label must be specified for rate limit resources", s)
    else
      match s.resources.ResourceRateLimits.find? (fun rl => rl.Label == rconf.Label) with
      | some rl =>
        (some ("label " ++ rl.Label ++ " collides with a previously defined resource"), s)
      | none =>
        (none, { s with resources := { s.resources with
          ResourceRateLimits := s.resources.ResourceRateLimits ++ [rconf] } })

/-- Modelled from the spec: the per-item merge loop of
`manager.ResourceConfig.AddFrom` (external to src) over one resource kind:
each item is added under the same collision rule, and the first collision
aborts leaving the earlier additions applied. -/
def resourceMergeKind (acc : List CConfig) : List CConfig → Option String × List CConfig
  | [] => (none, acc)
  | c :: cs =>
    match acc.find? (fun cc => cc.Label == c.Label) with
    | some cc => (some ("label " ++ cc.Label ++ " collides with a previously defined resource"), acc)
    | none => resourceMergeKind (acc ++ [c]) cs

/-- Modelled from the spec: `manager.ResourceConfig.AddFrom` (external to
src), used by `AddResourcesYAML`: every resource of the other set is added
under the same per-item collision rule, and the first collision aborts the
merge leaving the earlier additions applied. -/
def ResourceConfig.addFrom (r other : ResourceConfig) : Option String × ResourceConfig :=
  match resourceMergeKind r.ResourceCaches other.ResourceCaches with
  | (some e, cs) => (some e, { r with ResourceCaches := cs })
  | (none, cs) =>
    match resourceMergeKind r.ResourceRateLimits other.ResourceRateLimits with
    | (some e, rls) => (some e, { ResourceCaches := cs, ResourceRateLimits := rls })
    | (none, rls) => (none, { ResourceCaches := cs, ResourceRateLimits := rls })

/-- `AddResourcesYAML`: parses a resource set and merges it via
`AddFrom`. -/
def StreamBuilder.addResourcesYAML (s : StreamBuilder) (p : Except String ResourceConfig) :
    Option String × StreamBuilder :=
  match p with
  | .error e => (some e, s)
  | .ok rconf =>
    match s.resources.addFrom rconf with
    | (e, merged) => (e, { s with resources := merged })

/-- `setFromConfig`: overwrites every config field of the builder from a
parsed full config; the input and output lists become singletons holding
the parsed top-level input and output.  The registration fields
(`producerChan`, `producerID`, `consumerFunc`, `consumerID`) are not
touched. -/
def StreamBuilder.setFromConfig (s : StreamBuilder) (c : FullConfig) : StreamBuilder :=
  { s with
    http := c.HTTP
    inputs := [c.Input]
    buffer := c.Buffer
    processors := c.Processors
    threads := c.Threads
    outputs := [c.Output]
    resources := c.Resources
    logger := c.Logger
    metrics := c.Metrics
    tracer := c.Tracer }

/-- `SetYAML`: refuses to replace the config wholesale once a producer or
consumer func was registered; otherwise the externally parsed full config
(passed in as its resolved outcome) overwrites the builder state. -/
def StreamBuilder.setYAML (s : StreamBuilder) (p : Except String FullConfig) :
    Option String × StreamBuilder :=
  if s.producerChan.isSome then
    (some "attempted to override inputs config after adding a func producer", s)
  else if s.consumerFunc.isSome then
    (some "attempted to override outputs config after adding a func consumer", s)
  else
    match p with
    | .error e => (some e, s)
    | .ok sconf => (none, s.setFromConfig sconf)

/-- `SetFields`: same mutation-conflict guards as `SetYAML`, then an
even-length check on the path/value list (`npairs` is the length of the
variadic argument list); the serialize-override-reparse chain is passed in
as its resolved outcome. -/
def StreamBuilder.setFields (s : StreamBuilder) (npairs : Nat)
    (p : Except String FullConfig) : Option String × StreamBuilder :=
  if s.producerChan.isSome then
    (some "attempted to override config after adding a func producer", s)
  else if s.consumerFunc.isSome then
    (some "attempted to override config after adding a func consumer", s)
  else if npairs % 2 ≠ 0 then
    (some "invalid odd number of pathValues provided", s)
  else
    match p with
    | .error e => (some e, s)
    | .ok sconf => (none, s.setFromConfig sconf)

/-- `SetBufferYAML`: replaces the buffer with a parsed config. -/
def StreamBuilder.setBufferYAML (s : StreamBuilder) (p : Except String CConfig) :
    Option String × StreamBuilder :=
  match p with
  | .error e => (some e, s)
  | .ok bconf => (none, { s with buffer := bconf })

/-- `SetMetricsYAML`: replaces the metrics config with a parsed config. -/
def StreamBuilder.setMetricsYAML (s : StreamBuilder) (p : Except String CConfig) :
    Option String × StreamBuilder :=
  match p with
  | .error e => (some e, s)
  | .ok mconf => (none, { s with metrics := mconf })

/-- `SetTracerYAML`: replaces the tracer config with a parsed config. -/
def StreamBuilder.setTracerYAML (s : StreamBuilder) (p : Except String TracerConfig) :
    Option String × StreamBuilder :=
  match p with
  | .error e => (some e, s)
  | .ok tconf => (none, { s with tracer := tconf })

/-- `SetLoggerYAML`: replaces the logger config with a parsed config. -/
def StreamBuilder.setLoggerYAML (s : StreamBuilder) (p : Except String LogConfig) :
    Option String × StreamBuilder :=
  match p with
  | .error e => (some e, s)
  | .ok lconf => (none, { s with logger := lconf })

/-- `buildConfig`: the pure snapshot of the builder.  One input is used
unmodified; more than one is composed into a `broker` config whose plugin
map holds the ordered sub-input list under `inputs`; none yields the
default input.  Outputs are composed the same way under `outputs`, with a
`pattern` entry added only when a non-empty broker pattern was set.  The
HTTP section is present only when no external mux was installed, the
logger section only when no custom logger was installed. -/
def StreamBuilder.buildConfig (s : StreamBuilder) : BuilderConfig :=
  let inputC : CConfig :=
    match s.inputs with
    | [c] => c
    | [] => input_NewConfig
    | cs =>
      { type_ := "broker"
        Plugin := AnyValue.amap [("inputs", AnyValue.list (cs.map CConfig.ofAny))]
        Label := "" }
  let outputC : CConfig :=
    match s.outputs with
    | [c] => c
    | [] => output_NewConfig
    | cs =>
      let broker : List (String × AnyValue) :=
        [("outputs", AnyValue.list (cs.map CConfig.ofAny))]
      let broker :=
        if s.outputBrokerPattern ≠ "" then
          broker ++ [("pattern", AnyValue.str s.outputBrokerPattern)]
        else broker
      { type_ := "broker", Plugin := AnyValue.amap broker, Label := "" }
  { HTTP := if s.apiMut.isNone then some s.http else none
    Input := inputC
    Buffer := s.buffer
    Threads := s.threads
    Processors := s.processors
    Output := outputC
    Resources := s.resources
    Metrics := s.metrics
    Logger := if s.customLogger.isNone then some s.logger else none
    Tracer := s.tracer }

/-- Modelled from the spec: the sanitised textual document produced by
`AsYAML` — the snapshot rendered through the external encode → sanitise →
marshal chain.  The document is modelled structurally as the sanitised
snapshot itself; secret scrubbing and type-discriminator removal act only
on parts of the payloads that no modelled field depends on. -/
structure RenderedDoc where
  sanitised : BuilderConfig

/-- `AsYAML`: renders the current snapshot to the sanitised document. -/
def StreamBuilder.asYAML (s : StreamBuilder) : RenderedDoc :=
  { sanitised := s.buildConfig }

/-- Modelled from the spec: the external parse of a rendered document back
into a full config (`getYAMLNode` → lint → `config.FromParsed`); the spec
states the round trip yields an equivalent configuration, with sections
omitted by the rendering (HTTP under an external mux, logger under a
custom logger) filled with their defaults. -/
def parseRenderedDoc (d : RenderedDoc) : FullConfig :=
  { HTTP := d.sanitised.HTTP.getD api_NewConfig
    Input := d.sanitised.Input
    Buffer := d.sanitised.Buffer
    Processors := d.sanitised.Processors
    Threads := d.sanitised.Threads
    Output := d.sanitised.Output
    Resources := d.sanitised.Resources
    Logger := d.sanitised.Logger.getD log_NewConfig
    Metrics := d.sanitised.Metrics
    Tracer := d.sanitised.Tracer }

/-- Snapshot equivalence modulo default-filled sections: all composed
fields agree, and the optional HTTP and logger sections agree once an
omitted section is filled with its default. -/
def BuilderConfig.equivModDefaults (a b : BuilderConfig) : Prop :=
  a.Input = b.Input ∧ a.Buffer = b.Buffer ∧ a.Threads = b.Threads ∧
  a.Processors = b.Processors ∧ a.Output = b.Output ∧
  a.Resources = b.Resources ∧ a.Metrics = b.Metrics ∧ a.Tracer = b.Tracer ∧
  a.HTTP.getD api_NewConfig = b.HTTP.getD api_NewConfig ∧
  a.Logger.getD log_NewConfig = b.Logger.getD log_NewConfig

/-- The environment of one call to the handler returned by
`AddProducerFunc` / `AddBatchProducerFunc`: whether the context is already
cancelled at the call, whether a pipeline receiver is ready on the
transaction channel, whether and how the acknowledgement would resolve
while the handler still waits, and the scheduler's choice for each of the
two `select` statements when more than one case is ready (Go resolves such
races by uniform pseudo-random choice). -/
structure ProducerCallEnv where
  ctxDone : Bool
  pipelineReady : Bool
  ackReady : Bool
  ackResult : Option String
  pickDoneFirst : Bool
  pickDoneSecond : Bool
deriving Repr, DecidableEq

/-- The observable outcome of one producer handler call: the handler
returned the resolved acknowledgement (`returned`), returned the distinct
context-cancellation error (`cancelledReturn`), or blocks waiting; the
Boolean records whether the transaction was handed to the pipeline. -/
inductive ProducerCallOutcome : Type where
  | returned : Option String → Bool → ProducerCallOutcome
  | cancelledReturn : Bool → ProducerCallOutcome
  | blocked : Bool → ProducerCallOutcome
deriving Repr, DecidableEq

/-- The second `select` of the producer handler, reached after the
transaction was handed to the pipeline: receive the acknowledgement from
the result channel, or return the cancellation error when the context's
done channel is ready (randomly chosen when both are ready). -/
def producerFuncAfterSend (env : ProducerCallEnv) : ProducerCallOutcome :=
  if env.ackReady ∧ env.ctxDone then
    if env.pickDoneSecond then .cancelledReturn true else .returned env.ackResult true
  else if env.ackReady then .returned env.ackResult true
  else if env.ctxDone then .cancelledReturn true
  else .blocked true

/-- One call of the handler closure returned by `AddProducerFunc` /
`AddBatchProducerFunc`: the first `select` either hands the transaction to
the pipeline or returns the cancellation error when the context's done
channel is ready (randomly chosen when both are ready); after a send the
second `select` waits for the acknowledgement. -/
def producerFuncCall (env : ProducerCallEnv) : ProducerCallOutcome :=
  if env.pipelineReady ∧ env.ctxDone then
    if env.pickDoneFirst then .cancelledReturn false else producerFuncAfterSend env
  else if env.ctxDone then .cancelledReturn false
  else if env.pipelineReady then producerFuncAfterSend env
  else .blocked false

/-- Modelled from the spec: the external `docs` package capabilities
consumed by the tracer conversion functions — component-type inference
from a generic map or a yaml node, and extraction of the plugin config
node for an inferred type. -/
structure DocsProvider where
  inferTracerFromMap : List (String × AnyValue) → Except String String
  inferTracerFromYAML : YamlNode → Except String String
  getPluginConfigYAML : String → YamlNode → Except String YamlNode

/-- Modelled from the spec: `docs.NewLintError` rendered as an error
string carrying the line, the lint kind and the wrapped cause. -/
def newLintError (line : Int) (kind : String) (cause : String) : String :=
  "(" ++ toString line ++ "," ++ toString 1 ++ ") " ++ kind ++ ": " ++ cause

/-- The Go `any` argument of `tracer.FromAny`, as the closed set of shapes
its type switch distinguishes: an already-typed `Config`, a yaml node
pointer, a generic string-keyed map, or any other value (carrying the
dynamic type name that `%T` would print). -/
inductive TracerAnyValue : Type where
  | typedConf : TracerConfig → TracerAnyValue
  | yamlNode : YamlNode → TracerAnyValue
  | strMap : List (String × AnyValue) → TracerAnyValue
  | other : String → TracerAnyValue

/-- `tracer.fromMap`: infers the component type from the map, then takes
the plugin payload from the entry named after the inferred type, else from
the `plugin` entry, else leaves it nil. -/
def tracer_fromMap (prov : DocsProvider) (value : List (String × AnyValue)) :
    TracerConfig × Option String :=
  match prov.inferTracerFromMap value with
  | .error e => ({ type_ := "", Plugin := AnyValue.null }, some (newLintError 0 "component not found" e))
  | .ok t =>
    match lookupEntry t value with
    | some p => ({ type_ := t, Plugin := p }, none)
    | none =>
      match lookupEntry "plugin" value with
      | some p => ({ type_ := t, Plugin := p }, none)
      | none => ({ type_ := t, Plugin := AnyValue.null }, none)

/-- `tracer.fromYAML`: infers the component type from the node, then
extracts the plugin config node for that type. -/
def tracer_fromYAML (prov : DocsProvider) (value : YamlNode) :
    TracerConfig × Option String :=
  match prov.inferTracerFromYAML value with
  | .error e =>
    ({ type_ := "", Plugin := AnyValue.null }, some (newLintError value.line "component not found" e))
  | .ok t =>
    match prov.getPluginConfigYAML t value with
    | .error e =>
      ({ type_ := t, Plugin := AnyValue.null }, some (newLintError value.line "failed read" e))
    | .ok pluginNode => ({ type_ := t, Plugin := AnyValue.ynode pluginNode }, none)

/-- `tracer.FromAny`: the type switch over the accepted source shapes; any
other shape yields the zero-valued config and an error naming the
unexpected dynamic type. -/
def tracer_FromAny (prov : DocsProvider) (value : TracerAnyValue) :
    TracerConfig × Option String :=
  match value with
  | .typedConf t => (t, none)
  | .yamlNode n => tracer_fromYAML prov n
  | .strMap m => tracer_fromMap prov m
  | .other goType =>
    ({ type_ := "", Plugin := AnyValue.null },
      some ("unexpected value, expected object, got " ++ goType))

/-- One mutating call on the builder surface, with every external effect
(uuid generation, the parse + lint chains) carried as its resolved
argument so that a sequence of operations is a plain list. -/
inductive BOp : Type where
  | addProducerFunc : String → BOp
  | addBatchProducerFunc : String → BOp
  | addConsumerFunc : String → (Message → Option String) → BOp
  | addBatchConsumerFunc : String → (List Message → Option String) → BOp
  | addInputYAML : Except String CConfig → BOp
  | addProcessorYAML : Except String CConfig → BOp
  | addOutputYAML : Except String CConfig → BOp
  | addCacheYAML : Except String CConfig → BOp
  | addRateLimitYAML : Except String CConfig → BOp
  | addResourcesYAML : Except String ResourceConfig → BOp
  | setYAML : Except String FullConfig → BOp
  | setFields : Nat → Except String FullConfig → BOp
  | setBufferYAML : Except String CConfig → BOp
  | setMetricsYAML : Except String CConfig → BOp
  | setTracerYAML : Except String TracerConfig → BOp
  | setLoggerYAML : Except String LogConfig → BOp
  | setThreads : Int → BOp
  | setEngineVersion : String → BOp
  | setOutputBrokerPattern : String → BOp
  | disableLinting : BOp
  | setCustomLogger : BOp
  | setHTTPMux : BOp

/-- Applies one operation to the builder state, returning the Go error and
the post-call state. -/
def applyOp (s : StreamBuilder) : BOp → Option String × StreamBuilder
  | .addProducerFunc id => s.addProducerFunc id
  | .addBatchProducerFunc id => s.addBatchProducerFunc id
  | .addConsumerFunc id fn => s.addConsumerFunc id fn
  | .addBatchConsumerFunc id fn => s.addBatchConsumerFunc id fn
  | .addInputYAML p => s.addInputYAML p
  | .addProcessorYAML p => s.addProcessorYAML p
  | .addOutputYAML p => s.addOutputYAML p
  | .addCacheYAML p => s.addCacheYAML p
  | .addRateLimitYAML p => s.addRateLimitYAML p
  | .addResourcesYAML p => s.addResourcesYAML p
  | .setYAML p => s.setYAML p
  | .setFields n p => s.setFields n p
  | .setBufferYAML p => s.setBufferYAML p
  | .setMetricsYAML p => s.setMetricsYAML p
  | .setTracerYAML p => s.setTracerYAML p
  | .setLoggerYAML p => s.setLoggerYAML p
  | .setThreads n => (none, s.setThreads n)
  | .setEngineVersion v => (none, s.setEngineVersion v)
  | .setOutputBrokerPattern pat => (none, s.setOutputBrokerPattern pat)
  | .disableLinting => (none, s.disableLinting)
  | .setCustomLogger => (none, s.setCustomLogger)
  | .setHTTPMux => (none, s.setHTTPMux)

/-- Runs a sequence of operations, keeping only the final state (failed
calls leave the state they found). -/
def runOps (s : StreamBuilder) : List BOp → StreamBuilder
  | [] => s
  | op :: ops => runOps (applyOp s op).2 ops

/-- Classifies an operation as a producer registration (`some true`), a
consumer registration (`some false`), or neither. -/
def regKind : BOp → Option Bool
  | .addProducerFunc _ => some true
  | .addBatchProducerFunc _ => some true
  | .addConsumerFunc _ _ => some false
  | .addBatchConsumerFunc _ _ => some false
  | _ => none

/-- Whether a registration of the given kind has already succeeded on this
state: the producer channel or the stored consumer func is present. -/
def registered (k : Bool) (s : StreamBuilder) : Bool :=
  if k then s.producerChan.isSome else s.consumerFunc.isSome

/-- The duplicate-registration error message of each registration kind. -/
def dupRegMsg (k : Bool) : String :=
  if k then "unable to add multiple producer funcs to a stream builder"
  else "unable to add multiple consumer funcs to a stream builder"

/-- Counts the successful registrations of one kind along a run. -/
def succRegCount (k : Bool) (s : StreamBuilder) : List BOp → Nat
  | [] => 0
  | op :: ops =>
    (if regKind op = some k ∧ (applyOp s op).1 = none then 1 else 0) +
      succRegCount k (applyOp s op).2 ops

theorem runOps_append (s : StreamBuilder) (l₁ l₂ : List BOp) :
    runOps s (l₁ ++ l₂) = runOps (runOps s l₁) l₂ := by
  induction l₁ generalizing s with
  | nil => rfl
  | cons op ops ih => simp [runOps, ih]

theorem applyOp_reg_dup (s : StreamBuilder) (op : BOp) (k : Bool)
    (hk : regKind op = some k) (hr : registered k s = true) :
    applyOp s op = (some (dupRegMsg k), s) := by
  cases op <;> simp only [regKind, Option.some.injEq, reduceCtorEq] at hk <;>
    subst hk <;>
    simp only [registered, if_true, if_false, Bool.false_eq_true] at hr <;>
    simp [applyOp, StreamBuilder.addProducerFunc, StreamBuilder.addBatchProducerFunc,
      StreamBuilder.addConsumerFunc, StreamBuilder.addBatchConsumerFunc, hr, dupRegMsg]

theorem applyOp_registered_mono (k : Bool) (s : StreamBuilder) (op : BOp)
    (h : registered k s = true) : registered k (applyOp s op).2 = true := by
  cases k <;> cases op <;>
    simp only [applyOp, registered, StreamBuilder.addProducerFunc,
      StreamBuilder.addBatchProducerFunc, StreamBuilder.addConsumerFunc,
      StreamBuilder.addBatchConsumerFunc, StreamBuilder.addInputYAML,
      StreamBuilder.addProcessorYAML, StreamBuilder.addOutputYAML,
      StreamBuilder.addCacheYAML, StreamBuilder.addRateLimitYAML,
      StreamBuilder.addResourcesYAML, StreamBuilder.setYAML, StreamBuilder.setFields,
      StreamBuilder.setBufferYAML, StreamBuilder.setMetricsYAML,
      StreamBuilder.setTracerYAML, StreamBuilder.setLoggerYAML,
      StreamBuilder.setThreads, StreamBuilder.setEngineVersion,
      StreamBuilder.setOutputBrokerPattern, StreamBuilder.disableLinting,
      StreamBuilder.setCustomLogger, StreamBuilder.setHTTPMux,
      StreamBuilder.setFromConfig] at h ⊢ <;>
    (repeat' split) <;> simp_all

theorem applyOp_registered_of_ne (k : Bool) (s : StreamBuilder) (op : BOp)
    (hk : regKind op ≠ some k) :
    registered k (applyOp s op).2 = registered k s := by
  cases k <;> cases op <;>
    simp only [regKind, ne_eq, Option.some.injEq, Bool.true_eq_false, Bool.false_eq_true,
      not_false_eq_true, not_true_eq_false] at hk <;>
    simp only [applyOp, registered, StreamBuilder.addProducerFunc,
      StreamBuilder.addBatchProducerFunc, StreamBuilder.addConsumerFunc,
      StreamBuilder.addBatchConsumerFunc, StreamBuilder.addInputYAML,
      StreamBuilder.addProcessorYAML, StreamBuilder.addOutputYAML,
      StreamBuilder.addCacheYAML, StreamBuilder.addRateLimitYAML,
      StreamBuilder.addResourcesYAML, StreamBuilder.setYAML, StreamBuilder.setFields,
      StreamBuilder.setBufferYAML, StreamBuilder.setMetricsYAML,
      StreamBuilder.setTracerYAML, StreamBuilder.setLoggerYAML,
      StreamBuilder.setThreads, StreamBuilder.setEngineVersion,
      StreamBuilder.setOutputBrokerPattern, StreamBuilder.disableLinting,
      StreamBuilder.setCustomLogger, StreamBuilder.setHTTPMux,
      StreamBuilder.setFromConfig] <;>
    (repeat' split) <;> simp_all

theorem applyOp_reg_succeeds (s : StreamBuilder) (op : BOp) (k : Bool)
    (hk : regKind op = some k) (hr : registered k s = false) :
    (applyOp s op).1 = none ∧ registered k (applyOp s op).2 = true := by
  cases op <;> simp only [regKind, Option.some.injEq, reduceCtorEq] at hk <;>
    subst hk <;>
    simp [registered] at hr <;>
    simp [applyOp, StreamBuilder.addProducerFunc, StreamBuilder.addBatchProducerFunc,
      StreamBuilder.addConsumerFunc, StreamBuilder.addBatchConsumerFunc, registered, hr]

theorem runOps_registered_mono (k : Bool) (s : StreamBuilder) (ops : List BOp)
    (h : registered k s = true) : registered k (runOps s ops) = true := by
  induction ops generalizing s with
  | nil => exact h
  | cons op ops ih => exact ih _ (applyOp_registered_mono k s op h)

theorem succRegCount_eq_zero (k : Bool) (s : StreamBuilder) (ops : List BOp)
    (h : registered k s = true) : succRegCount k s ops = 0 := by
  induction ops generalizing s with
  | nil => rfl
  | cons op ops ih =>
    have hfail : ¬(regKind op = some k ∧ (applyOp s op).1 = none) := by
      rintro ⟨hk, hnone⟩
      rw [applyOp_reg_dup s op k hk h] at hnone
      exact Option.noConfusion hnone
    rw [succRegCount, if_neg hfail, Nat.zero_add]
    exact ih _ (applyOp_registered_mono k s op h)

theorem succRegCount_le_one (k : Bool) (s : StreamBuilder) (ops : List BOp)
    (h : registered k s = false) : succRegCount k s ops ≤ 1 := by
  induction ops generalizing s with
  | nil => exact Nat.zero_le 1
  | cons op ops ih =>
    by_cases hk : regKind op = some k
    · have hs := applyOp_reg_succeeds s op k hk h
      rw [succRegCount, if_pos ⟨hk, hs.1⟩, succRegCount_eq_zero k _ ops hs.2]
    · rw [succRegCount]
      have hne : ¬(regKind op = some k ∧ (applyOp s op).1 = none) := fun hc => hk hc.1
      rw [if_neg hne, Nat.zero_add]
      exact ih _ (by rw [applyOp_registered_of_ne k s op hk]; exact h)

/-- Claim C7: for every builder state holding exactly one input config,
the composed input returned by `buildConfig` equals that config
unmodified, with no broker wrapper present. -/
theorem buildConfig_single_input (s : StreamBuilder) (c : CConfig)
    (h : s.inputs = [c]) : s.buildConfig.Input = c := by
  simp [StreamBuilder.buildConfig, h]

/-- Witness for `buildConfig_single_input` at a concrete one-input
builder. -/
theorem buildConfig_single_input_witness :
    ({ newStreamBuilder with
        inputs := [{ type_ := "generate", Plugin := AnyValue.str "x", Label := "g" }] }
      : StreamBuilder).inputs =
        [{ type_ := "generate", Plugin := AnyValue.str "x", Label := "g" }] ∧
    ({ newStreamBuilder with
        inputs := [{ type_ := "generate", Plugin := AnyValue.str "x", Label := "g" }] }
      : StreamBuilder).buildConfig.Input =
        { type_ := "generate", Plugin := AnyValue.str "x", Label := "g" } :=
  ⟨rfl, buildConfig_single_input _ _ rfl⟩

/-- Claim C4: for every builder state holding more than one input config,
the composed input is a broker config whose plugin payload holds exactly
the added sub-input list, in order, with no reordering, dropping or
duplication. -/
theorem buildConfig_multi_input_broker (s : StreamBuilder)
    (h : 1 < s.inputs.length) :
    s.buildConfig.Input.type_ = "broker" ∧
    s.buildConfig.Input.Plugin =
      AnyValue.amap [("inputs", AnyValue.list (s.inputs.map CConfig.ofAny))] := by
  match hs : s.inputs with
  | [] => rw [hs] at h; simp at h
  | [c] => rw [hs] at h; simp at h
  | a :: b :: rest => exact ⟨by simp [StreamBuilder.buildConfig, hs], by simp [StreamBuilder.buildConfig, hs]⟩

/-- Witness for `buildConfig_multi_input_broker` at a concrete two-input
builder. -/
theorem buildConfig_multi_input_broker_witness :
    1 < ({ newStreamBuilder with
        inputs := [{ type_ := "generate", Plugin := AnyValue.null, Label := "a" },
                   { type_ := "stdin", Plugin := AnyValue.null, Label := "b" }] }
      : StreamBuilder).inputs.length ∧
    ({ newStreamBuilder with
        inputs := [{ type_ := "generate", Plugin := AnyValue.null, Label := "a" },
                   { type_ := "stdin", Plugin := AnyValue.null, Label := "b" }] }
      : StreamBuilder).buildConfig.Input.type_ = "broker" ∧
    ({ newStreamBuilder with
        inputs := [{ type_ := "generate", Plugin := AnyValue.null, Label := "a" },
                   { type_ := "stdin", Plugin := AnyValue.null, Label := "b" }] }
      : StreamBuilder).buildConfig.Input.Plugin =
      AnyValue.amap [("inputs", AnyValue.list
        [AnyValue.conf "generate" AnyValue.null "a", AnyValue.conf "stdin" AnyValue.null "b"])] := by
  refine ⟨by decide, ?_⟩
  have h := buildConfig_multi_input_broker
    ({ newStreamBuilder with
        inputs := [{ type_ := "generate", Plugin := AnyValue.null, Label := "a" },
                   { type_ := "stdin", Plugin := AnyValue.null, Label := "b" }] })
    (by decide)
  exact ⟨h.1, h.2⟩

/-- Counterexample to claim C1 as stated: a builder holding two output
configs on which the pattern setter was never called composes a `broker`
output whose plugin map carries NO distribution-pattern entry at all — in
particular no `fan_out` symbol is attached by default; the broker
implementation's own downstream default is what makes `fan_out` apply. -/
theorem output_broker_default_pattern_counterexample :
    ({ newStreamBuilder with
        outputs := [{ type_ := "drop", Plugin := AnyValue.null, Label := "a" },
                    { type_ := "stdout", Plugin := AnyValue.null, Label := "b" }] }
      : StreamBuilder).buildConfig.Output.type_ = "broker" ∧
    ({ newStreamBuilder with
        outputs := [{ type_ := "drop", Plugin := AnyValue.null, Label := "a" },
                    { type_ := "stdout", Plugin := AnyValue.null, Label := "b" }] }
      : StreamBuilder).buildConfig.Output.Plugin.mapLookup "pattern" = none :=
  ⟨rfl, rfl⟩

/-- Claim C1 (amended): for every builder state holding more than one
output config, the composed output is a broker component holding the
outputs in order; a distribution-pattern symbol equal to the caller's
symbol is attached exactly when a non-empty pattern was set via the
pattern setter, and no pattern entry is attached when the pattern was
never set (the broker implementation's downstream default, `fan_out`,
then applies). -/
theorem buildConfig_output_broker_pattern (s : StreamBuilder)
    (h : 1 < s.outputs.length) :
    s.buildConfig.Output.type_ = "broker" ∧
    s.buildConfig.Output.Plugin.mapLookup "outputs" =
      some (AnyValue.list (s.outputs.map CConfig.ofAny)) ∧
    (∀ p : String, p ≠ "" →
      (s.setOutputBrokerPattern p).buildConfig.Output.Plugin.mapLookup "pattern" =
        some (AnyValue.str p)) ∧
    (s.outputBrokerPattern = "" →
      s.buildConfig.Output.Plugin.mapLookup "pattern" = none) := by
  match hs : s.outputs with
  | [] => rw [hs] at h; simp at h
  | [c] => rw [hs] at h; simp at h
  | a :: b :: rest =>
    refine ⟨?_, ?_, ?_, ?_⟩
    · by_cases hp : s.outputBrokerPattern = "" <;>
        simp [StreamBuilder.buildConfig, hs, hp]
    · by_cases hp : s.outputBrokerPattern = "" <;>
        simp [StreamBuilder.buildConfig, hs, hp, AnyValue.mapLookup, lookupEntry]
    · intro p hp
      simp [StreamBuilder.setOutputBrokerPattern, StreamBuilder.buildConfig, hs, hp,
        AnyValue.mapLookup, lookupEntry]
    · intro hp
      simp [StreamBuilder.buildConfig, hs, hp, AnyValue.mapLookup, lookupEntry]

/-- Witness for `buildConfig_output_broker_pattern` at a concrete
two-output builder. -/
theorem buildConfig_output_broker_pattern_witness :
    1 < ({ newStreamBuilder with
        outputs := [{ type_ := "drop", Plugin := AnyValue.null, Label := "a" },
                    { type_ := "stdout", Plugin := AnyValue.null, Label := "b" }] }
      : StreamBuilder).outputs.length ∧
    ({ newStreamBuilder with
        outputs := [{ type_ := "drop", Plugin := AnyValue.null, Label := "a" },
                    { type_ := "stdout", Plugin := AnyValue.null, Label := "b" }] }
      : StreamBuilder).buildConfig.Output.type_ = "broker" ∧
    (({ newStreamBuilder with
        outputs := [{ type_ := "drop", Plugin := AnyValue.null, Label := "a" },
                    { type_ := "stdout", Plugin := AnyValue.null, Label := "b" }] }
      : StreamBuilder).setOutputBrokerPattern "round_robin").buildConfig.Output.Plugin.mapLookup
        "pattern" = some (AnyValue.str "round_robin") := by
  refine ⟨by decide, ?_⟩
  have h := buildConfig_output_broker_pattern
    ({ newStreamBuilder with
        outputs := [{ type_ := "drop", Plugin := AnyValue.null, Label := "a" },
                    { type_ := "stdout", Plugin := AnyValue.null, Label := "b" }] })
    (by decide)
  exact ⟨h.1, h.2.2.1 "round_robin" (by decide)⟩

/-- Claim C2: once a producer func or a consumer func has been registered,
`SetYAML` fails with a mutation-conflict error and the whole builder state
— every field — is unchanged by the failed call, whatever document was
supplied. -/
theorem setYAML_mutation_conflict (s : StreamBuilder) (p : Except String FullConfig)
    (h : s.producerChan.isSome = true ∨ s.consumerFunc.isSome = true) :
    ((s.setYAML p).1 = some "attempted to override inputs config after adding a func producer" ∨
      (s.setYAML p).1 = some "attempted to override outputs config after adding a func consumer") ∧
    (s.setYAML p).2 = s := by
  unfold StreamBuilder.setYAML
  rcases h with h | h
  · simp [h]
  · by_cases hp : s.producerChan.isSome = true <;> simp [hp, h]

/-- Witness for `setYAML_mutation_conflict` on a builder with a registered
producer func. -/
theorem setYAML_mutation_conflict_witness :
    (({ newStreamBuilder with producerChan := some () } : StreamBuilder).producerChan.isSome = true ∨
      ({ newStreamBuilder with producerChan := some () } : StreamBuilder).consumerFunc.isSome = true) ∧
    ((({ newStreamBuilder with producerChan := some () } : StreamBuilder).setYAML
        (Except.error "nope")).1 =
          some "attempted to override inputs config after adding a func producer" ∨
      (({ newStreamBuilder with producerChan := some () } : StreamBuilder).setYAML
        (Except.error "nope")).1 =
          some "attempted to override outputs config after adding a func consumer") ∧
    (({ newStreamBuilder with producerChan := some () } : StreamBuilder).setYAML
        (Except.error "nope")).2 =
      { newStreamBuilder with producerChan := some () } :=
  ⟨Or.inl rfl, setYAML_mutation_conflict _ (Except.error "nope") (Or.inl rfl)⟩

/-- Claim C5: adding a cache or rate-limit resource whose label collides
with a previously added resource of the same kind fails with the collision
error and leaves the builder (in particular the resource set of that kind,
its size and elements) unchanged; a successful add requires a non-empty
label and appends exactly the new resource. -/
theorem resource_label_collision (s : StreamBuilder) (c r : CConfig) :
    (c.Label ≠ "" → (∃ cc ∈ s.resources.ResourceCaches, cc.Label = c.Label) →
      s.addCacheYAML (Except.ok c) =
        (some ("label " ++ c.Label ++ " collides with a previously defined resource"), s)) ∧
    ((s.addCacheYAML (Except.ok c)).1 = none →
      c.Label ≠ "" ∧
      (s.addCacheYAML (Except.ok c)).2.resources.ResourceCaches =
        s.resources.ResourceCaches ++ [c]) ∧
    (r.Label ≠ "" → (∃ rl ∈ s.resources.ResourceRateLimits, rl.Label = r.Label) →
      s.addRateLimitYAML (Except.ok r) =
        (some ("label " ++ r.Label ++ " collides with a previously defined resource"), s)) ∧
    ((s.addRateLimitYAML (Except.ok r)).1 = none →
      r.Label ≠ "" ∧
      (s.addRateLimitYAML (Except.ok r)).2.resources.ResourceRateLimits =
        s.resources.ResourceRateLimits ++ [r]) := by
  refine ⟨?_, ?_, ?_, ?_⟩
  · intro hne hex
    have hsome : (s.resources.ResourceCaches.find? (fun cc => cc.Label == c.Label)).isSome := by
      rw [List.find?_isSome]
      obtain ⟨cc, hmem, heq⟩ := hex
      exact ⟨cc, hmem, by simp [heq]⟩
    obtain ⟨cc, hcc⟩ := Option.isSome_iff_exists.mp hsome
    have hlab : cc.Label = c.Label := by simpa using List.find?_some hcc
    simp [StreamBuilder.addCacheYAML, hne, hcc, hlab]
  · intro hnone
    unfold StreamBuilder.addCacheYAML at hnone ⊢
    by_cases hl : c.Label = ""
    · simp [hl] at hnone
    · cases hfind : s.resources.ResourceCaches.find? (fun cc => cc.Label == c.Label) with
      | some cc => simp [hl, hfind] at hnone
      | none => simp [hl, hfind]
  · intro hne hex
    have hsome : (s.resources.ResourceRateLimits.find? (fun rl => rl.Label == r.Label)).isSome := by
      rw [List.find?_isSome]
      obtain ⟨rl, hmem, heq⟩ := hex
      exact ⟨rl, hmem, by simp [heq]⟩
    obtain ⟨rl, hrl⟩ := Option.isSome_iff_exists.mp hsome
    have hlab : rl.Label = r.Label := by simpa using List.find?_some hrl
    simp [StreamBuilder.addRateLimitYAML, hne, hrl, hlab]
  · intro hnone
    unfold StreamBuilder.addRateLimitYAML at hnone ⊢
    by_cases hl : r.Label = ""
    · simp [hl] at hnone
    · cases hfind : s.resources.ResourceRateLimits.find? (fun rl => rl.Label == r.Label) with
      | some rl => simp [hl, hfind] at hnone
      | none => simp [hl, hfind]

/-- Witness for `resource_label_collision`: a concrete builder already
holding a cache labelled `foo` and a rate limit labelled `bar` rejects a
second cache `foo` and a second rate limit `bar` unchanged. -/
theorem resource_label_collision_witness :
    ({ type_ := "redis", Plugin := AnyValue.null, Label := "foo" } : CConfig).Label ≠ "" ∧
    (∃ cc ∈ ({ newStreamBuilder with resources :=
        { ResourceCaches := [{ type_ := "memory", Plugin := AnyValue.null, Label := "foo" }]
          ResourceRateLimits := [{ type_ := "local", Plugin := AnyValue.null, Label := "bar" }] } }
        : StreamBuilder).resources.ResourceCaches, cc.Label = "foo") ∧
    ({ newStreamBuilder with resources :=
        { ResourceCaches := [{ type_ := "memory", Plugin := AnyValue.null, Label := "foo" }]
          ResourceRateLimits := [{ type_ := "local", Plugin := AnyValue.null, Label := "bar" }] } }
      : StreamBuilder).addCacheYAML
        (Except.ok { type_ := "redis", Plugin := AnyValue.null, Label := "foo" }) =
      (some "label foo collides with a previously defined resource",
        { newStreamBuilder with resources :=
          { ResourceCaches := [{ type_ := "memory", Plugin := AnyValue.null, Label := "foo" }]
            ResourceRateLimits := [{ type_ := "local", Plugin := AnyValue.null, Label := "bar" }] } }) := by
  refine ⟨by decide, ⟨{ type_ := "memory", Plugin := AnyValue.null, Label := "foo" }, by simp, rfl⟩, ?_⟩
  exact (resource_label_collision
    ({ newStreamBuilder with resources :=
        { ResourceCaches := [{ type_ := "memory", Plugin := AnyValue.null, Label := "foo" }]
          ResourceRateLimits := [{ type_ := "local", Plugin := AnyValue.null, Label := "bar" }] } })
    { type_ := "redis", Plugin := AnyValue.null, Label := "foo" }
    { type_ := "local", Plugin := AnyValue.null, Label := "bar" }).1
    (by decide)
    ⟨{ type_ := "memory", Plugin := AnyValue.null, Label := "foo" }, by simp, rfl⟩

/-- Claim C6: the batch handler wrapped around a per-message handler by
`AddConsumerFunc` invokes the handler on the batch in order, stops at the
first failing message, returns that failure as the whole batch's result,
never invokes the handler on any later message, and returns success when
the handler succeeds on every message. -/
theorem consumer_per_message_stops_at_first_failure (fn : Message → Option String)
    (mb : List Message) :
    ((∀ m ∈ mb, fn m = none) →
      consumerFuncFromHandler fn mb = none ∧ consumerFuncInvocations fn mb = mb) ∧
    (∀ i e, i < mb.length →
      (∀ j, j < i → fn (mb.getD j default) = none) →
      fn (mb.getD i default) = some e →
      consumerFuncFromHandler fn mb = some e ∧
      consumerFuncInvocations fn mb = mb.take (i + 1)) := by
  induction mb with
  | nil =>
    refine ⟨fun _ => ⟨rfl, rfl⟩, fun i e hi _ _ => absurd hi (by simp)⟩
  | cons m ms ih =>
    constructor
    · intro hall
      have hm : fn m = none := hall m (by simp)
      have hrest := ih.1 (fun x hx => hall x (by simp [hx]))
      simp [consumerFuncFromHandler, consumerFuncInvocations, hm, hrest.1, hrest.2]
    · intro i e hi hbefore hfail
      cases i with
      | zero =>
        simp only [List.getD_cons_zero] at hfail
        simp [consumerFuncFromHandler, consumerFuncInvocations, hfail]
      | succ n =>
        have hm : fn m = none := by
          have := hbefore 0 (Nat.succ_pos n)
          simpa using this
        have hrest := ih.2 n e (by simpa using hi)
          (fun j hj => by
            have := hbefore (j + 1) (by omega)
            simpa using this)
          (by simpa using hfail)
        simp [consumerFuncFromHandler, consumerFuncInvocations, hm, hrest.1, hrest.2]

/-- Witness for `consumer_per_message_stops_at_first_failure`: a batch of
three messages whose handler fails on the second returns that failure and
invokes the handler exactly twice (first and second message only). -/
theorem consumer_per_message_stops_at_first_failure_witness :
    (1 : Nat) < 3 ∧
    consumerFuncFromHandler
      (fun m => if m.content = "b" then some "boom" else none)
      [{ content := "a", metadata := [] }, { content := "b", metadata := [] },
        { content := "c", metadata := [] }] = some "boom" ∧
    consumerFuncInvocations
      (fun m => if m.content = "b" then some "boom" else none)
      [{ content := "a", metadata := [] }, { content := "b", metadata := [] },
        { content := "c", metadata := [] }] =
      [{ content := "a", metadata := [] }, { content := "b", metadata := [] }] := by
  refine ⟨by decide, ?_⟩
  have h := (consumer_per_message_stops_at_first_failure
    (fun m => if m.content = "b" then some "boom" else none)
    [{ content := "a", metadata := [] }, { content := "b", metadata := [] },
      { content := "c", metadata := [] }]).2 1 "boom" (by decide)
    (fun j hj => by
      have : j = 0 := by omega
      subst this
      rfl)
    (by rfl)
  exact ⟨h.1, h.2⟩

/-- Claim C3: over every sequence of operations starting from a builder
with no registrations, at most one producer registration and at most one
consumer registration succeed, and any later registration call of the same
kind (in either variant) that follows a successful one returns the
duplicate-registration error and leaves the builder state unchanged. -/
theorem registration_at_most_once (s₀ : StreamBuilder) (ops : List BOp)
    (hp : s₀.producerChan = none) (hc : s₀.consumerFunc = none) :
    succRegCount true s₀ ops ≤ 1 ∧ succRegCount false s₀ ops ≤ 1 ∧
    ∀ pre op₁ mid op₂ post, ops = pre ++ op₁ :: (mid ++ op₂ :: post) →
      ∀ k, regKind op₁ = some k → regKind op₂ = some k →
      (applyOp (runOps s₀ pre) op₁).1 = none →
      applyOp (runOps s₀ (pre ++ op₁ :: mid)) op₂ =
        (some (dupRegMsg k), runOps s₀ (pre ++ op₁ :: mid)) := by
  refine ⟨succRegCount_le_one true s₀ ops (by simp [registered, hp]),
    succRegCount_le_one false s₀ ops (by simp [registered, hc]), ?_⟩
  intro pre op₁ mid op₂ post _ k hk₁ hk₂ hsucc
  have hreg₁ : registered k (applyOp (runOps s₀ pre) op₁).2 = true := by
    cases hcase : registered k (runOps s₀ pre) with
    | true =>
      rw [applyOp_reg_dup (runOps s₀ pre) op₁ k hk₁ hcase] at hsucc
      exact Option.noConfusion hsucc
    | false => exact (applyOp_reg_succeeds (runOps s₀ pre) op₁ k hk₁ hcase).2
  have hmid : registered k (runOps s₀ (pre ++ op₁ :: mid)) = true := by
    rw [runOps_append]
    exact runOps_registered_mono k _ mid hreg₁
  exact applyOp_reg_dup _ op₂ k hk₂ hmid

/-- Witness for `registration_at_most_once` on a fresh builder with a
concrete operation sequence containing two producer and two consumer
registrations. -/
theorem registration_at_most_once_witness :
    newStreamBuilder.producerChan = none ∧ newStreamBuilder.consumerFunc = none ∧
    (succRegCount true newStreamBuilder
        [BOp.addProducerFunc "p", BOp.addBatchProducerFunc "q",
          BOp.addConsumerFunc "c" (fun _ => none),
          BOp.addBatchConsumerFunc "d" (fun _ => none)] ≤ 1 ∧
      succRegCount false newStreamBuilder
        [BOp.addProducerFunc "p", BOp.addBatchProducerFunc "q",
          BOp.addConsumerFunc "c" (fun _ => none),
          BOp.addBatchConsumerFunc "d" (fun _ => none)] ≤ 1 ∧
      ∀ pre op₁ mid op₂ post,
        [BOp.addProducerFunc "p", BOp.addBatchProducerFunc "q",
          BOp.addConsumerFunc "c" (fun _ => none),
          BOp.addBatchConsumerFunc "d" (fun _ => none)] =
            pre ++ op₁ :: (mid ++ op₂ :: post) →
        ∀ k, regKind op₁ = some k → regKind op₂ = some k →
        (applyOp (runOps newStreamBuilder pre) op₁).1 = none →
        applyOp (runOps newStreamBuilder (pre ++ op₁ :: mid)) op₂ =
          (some (dupRegMsg k), runOps newStreamBuilder (pre ++ op₁ :: mid))) :=
  ⟨rfl, rfl, registration_at_most_once newStreamBuilder
    [BOp.addProducerFunc "p", BOp.addBatchProducerFunc "q",
      BOp.addConsumerFunc "c" (fun _ => none),
      BOp.addBatchConsumerFunc "d" (fun _ => none)] rfl rfl⟩

/-- Claim C8: rendering a builder with no registrations to the sanitised
document (`AsYAML`) and re-parsing that document into a fresh builder
(`SetYAML`) succeeds and yields a builder whose snapshot is equivalent to
the original snapshot modulo the sections the rendering omits and the
parser default-fills. -/
theorem asYAML_setYAML_roundtrip (s : StreamBuilder)
    (_hp : s.producerChan = none) (_hc : s.consumerFunc = none) :
    (newStreamBuilder.setYAML (Except.ok (parseRenderedDoc s.asYAML))).1 = none ∧
    BuilderConfig.equivModDefaults
      ((newStreamBuilder.setYAML (Except.ok (parseRenderedDoc s.asYAML))).2.buildConfig)
      s.buildConfig := by
  refine ⟨rfl, rfl, rfl, rfl, rfl, rfl, rfl, rfl, rfl, ?_, ?_⟩
  · show (some (s.buildConfig.HTTP.getD api_NewConfig)).getD api_NewConfig =
      s.buildConfig.HTTP.getD api_NewConfig
    rfl
  · show (some (s.buildConfig.Logger.getD log_NewConfig)).getD log_NewConfig =
      s.buildConfig.Logger.getD log_NewConfig
    rfl

/-- Witness for `asYAML_setYAML_roundtrip` at a concrete builder with two
inputs, an external HTTP mux and a custom logger. -/
theorem asYAML_setYAML_roundtrip_witness :
    ({ newStreamBuilder with
        inputs := [{ type_ := "generate", Plugin := AnyValue.null, Label := "a" },
                   { type_ := "stdin", Plugin := AnyValue.null, Label := "b" }]
        apiMut := some (), customLogger := some () } : StreamBuilder).producerChan = none ∧
    ({ newStreamBuilder with
        inputs := [{ type_ := "generate", Plugin := AnyValue.null, Label := "a" },
                   { type_ := "stdin", Plugin := AnyValue.null, Label := "b" }]
        apiMut := some (), customLogger := some () } : StreamBuilder).consumerFunc = none ∧
    ((newStreamBuilder.setYAML (Except.ok (parseRenderedDoc
        ({ newStreamBuilder with
            inputs := [{ type_ := "generate", Plugin := AnyValue.null, Label := "a" },
                       { type_ := "stdin", Plugin := AnyValue.null, Label := "b" }]
            apiMut := some (), customLogger := some () } : StreamBuilder).asYAML))).1 = none ∧
      BuilderConfig.equivModDefaults
        ((newStreamBuilder.setYAML (Except.ok (parseRenderedDoc
          ({ newStreamBuilder with
              inputs := [{ type_ := "generate", Plugin := AnyValue.null, Label := "a" },
                         { type_ := "stdin", Plugin := AnyValue.null, Label := "b" }]
              apiMut := some (), customLogger := some () } : StreamBuilder).asYAML))).2.buildConfig)
        ({ newStreamBuilder with
            inputs := [{ type_ := "generate", Plugin := AnyValue.null, Label := "a" },
                       { type_ := "stdin", Plugin := AnyValue.null, Label := "b" }]
            apiMut := some (), customLogger := some () } : StreamBuilder).buildConfig) :=
  ⟨rfl, rfl, asYAML_setYAML_roundtrip _ rfl rfl⟩

/-- Counterexample to claim C9 as stated: when the already-cancelled
context races against a pipeline receiver that is ready, Go's `select`
may pick the send; if the acknowledgement then also races the done channel
and wins, the handler returns the resolved delivery result (here a
success), not the cancellation error, and the pipeline has observed the
transaction acknowledged. -/
theorem producer_cancelled_counterexample :
    producerFuncCall
      { ctxDone := true, pipelineReady := true, ackReady := true,
        ackResult := none, pickDoneFirst := false, pickDoneSecond := false } =
      ProducerCallOutcome.returned none true ∧
    ∀ d, producerFuncCall
      { ctxDone := true, pipelineReady := true, ackReady := true,
        ackResult := none, pickDoneFirst := false, pickDoneSecond := false } ≠
      ProducerCallOutcome.cancelledReturn d := by
  refine ⟨rfl, ?_⟩
  intro d
  simp [producerFuncCall, producerFuncAfterSend]

/-- Claim C9 (amended): a producer handler invoked with an already-fired
cancellation signal returns the distinct cancellation error with the
transaction never handed to the pipeline whenever the first `select` does
not resolve in favour of the ready send — in particular always when the
pipeline is not ready to accept the transaction;  if the scheduler instead
picks a simultaneously ready send, the transaction is delivered and the
handler may return the resolved delivery result. -/
theorem producer_cancelled_before_send (env : ProducerCallEnv)
    (hdone : env.ctxDone = true)
    (h : env.pipelineReady = false ∨ env.pickDoneFirst = true) :
    producerFuncCall env = ProducerCallOutcome.cancelledReturn false := by
  unfold producerFuncCall
  rcases h with h | h <;> simp [hdone, h]

/-- Witness for `producer_cancelled_before_send`: already-cancelled
context, pipeline not ready. -/
theorem producer_cancelled_before_send_witness :
    ({ ctxDone := true, pipelineReady := false, ackReady := false,
          ackResult := none, pickDoneFirst := false, pickDoneSecond := false }
      : ProducerCallEnv).ctxDone = true ∧
    (({ ctxDone := true, pipelineReady := false, ackReady := false,
          ackResult := none, pickDoneFirst := false, pickDoneSecond := false }
      : ProducerCallEnv).pipelineReady = false ∨
      ({ ctxDone := true, pipelineReady := false, ackReady := false,
            ackResult := none, pickDoneFirst := false, pickDoneSecond := false }
      : ProducerCallEnv).pickDoneFirst = true) ∧
    producerFuncCall
      { ctxDone := true, pipelineReady := false, ackReady := false,
          ackResult := none, pickDoneFirst := false, pickDoneSecond := false } =
      ProducerCallOutcome.cancelledReturn false :=
  ⟨rfl, Or.inl rfl, producer_cancelled_before_send _ rfl (Or.inl rfl)⟩

/-- Claim C10: `tracer.FromAny` on any value outside the three accepted
source shapes returns the zero-valued config together with an error naming
the unexpected dynamic type; it never succeeds on an unrecognized
shape. -/
theorem tracer_FromAny_unrecognized (prov : DocsProvider) (goType : String) :
    tracer_FromAny prov (TracerAnyValue.other goType) =
      ({ type_ := "", Plugin := AnyValue.null },
        some ("unexpected value, expected object, got " ++ goType)) :=
  rfl
